import Mathlib

/-!
Verification development for the BlackRoad spatial-computing engine
(`src/spatial_computing.py`).

Modelling choices, faithful to the source:
* Coordinates, radii and thresholds are rationals (the idealisation of the
  Python floats); Euclidean distances live in `ℝ` via `Real.sqrt`.
* The SQLite store is a pair of lists (`zones`, `entities`) in insertion
  order, together with the AUTOINCREMENT counters.  `SELECT ... WHERE name=?
  ... fetchone()` is `List.find?`; the `UNIQUE` constraint on `zones.name`
  makes `INSERT` fail (and change nothing) when the name is taken.
* The comparison `dist <= bound` of the source, where
  `dist = sqrt (squared distance)`, is embedded as the decidable test
  `sqrtLe`; the lemma `sqrtLe_iff` proves it equivalent to the real
  comparison `Real.sqrt s ≤ r`.
* Python's `sorted(results, key=lambda t: t[1])` is a stable ascending sort
  on the distance component; it is embedded as `List.insertionSort` on the
  (squared) distance key, which sorts in the same order because `Real.sqrt`
  is monotone and injective on nonnegative numbers.  The public query
  results (`find_entities_in_zone`, `proximity_check`) carry the real
  distance, obtained by mapping `Real.sqrt` over the squared key.
-/

namespace SpatialComputing

/-- A 3D point with rational coordinates, as the `Point3D` dataclass. -/
structure Point3D where
  x : ℚ
  y : ℚ
  z : ℚ
deriving DecidableEq

/-- The squared Euclidean distance between two points (the radicand of
`Point3D.distance_to` in the source). -/
def Point3D.sqDist (a b : Point3D) : ℚ :=
  (a.x - b.x) ^ 2 + (a.y - b.y) ^ 2 + (a.z - b.z) ^ 2

/-- The method `Point3D.distance_to`:
`math.sqrt((self.x-other.x)**2 + (self.y-other.y)**2 + (self.z-other.z)**2)`. -/
noncomputable def Point3D.distance_to (a b : Point3D) : ℝ :=
  Real.sqrt ((a.sqDist b : ℚ) : ℝ)

/-- The `Zone` dataclass: a spherical region record of the `zones` table. -/
structure Zone where
  id : ℕ
  name : String
  center_x : ℚ
  center_y : ℚ
  center_z : ℚ
  radius : ℚ
  zone_type : String
  created_at : String
  active : Int
deriving DecidableEq

/-- The `Zone.center` property. -/
def Zone.center (z : Zone) : Point3D :=
  ⟨z.center_x, z.center_y, z.center_z⟩

/-- The `SpatialEntity` dataclass: a point record of the `entities` table. -/
structure SpatialEntity where
  id : ℕ
  name : String
  x : ℚ
  y : ℚ
  z : ℚ
  entity_type : String
  metadata : String
  last_updated : String
deriving DecidableEq

/-- The `SpatialEntity.position` property. -/
def SpatialEntity.position (e : SpatialEntity) : Point3D :=
  ⟨e.x, e.y, e.z⟩

/-- The SQLite database state: both tables in insertion (rowid) order,
plus the AUTOINCREMENT counters for the next assigned ids. -/
structure DB where
  zones : List Zone
  entities : List SpatialEntity
  nextZoneId : ℕ
  nextEntityId : ℕ
deriving DecidableEq

/-- The freshly created database (`_init_db` on a new file): empty tables,
AUTOINCREMENT starting at 1. -/
def emptyDB : DB :=
  ⟨[], [], 1, 1⟩

/-- Well-formedness of a database state: every stored id is below the
corresponding AUTOINCREMENT counter (as SQLite guarantees). -/
def DB.WF (db : DB) : Prop :=
  (∀ z ∈ db.zones, z.id < db.nextZoneId) ∧
    (∀ e ∈ db.entities, e.id < db.nextEntityId)

instance (db : DB) : Decidable db.WF := by
  unfold DB.WF
  infer_instance

/-- The error message SQLite raises for an `INSERT` violating the `UNIQUE`
constraint on `zones.name`. -/
def duplicateZoneNameError : String :=
  "UNIQUE constraint failed: zones.name"

/-- The method `SpatialComputing.add_zone`: inserts a zone row; the `UNIQUE`
constraint on `name` makes the insert fail, leaving the database unchanged,
when the name is already present.  `now` stands for
`datetime.now().isoformat()`. -/
def add_zone (db : DB) (name : String) (cx cy cz radius : ℚ)
    (zone_type : String) (now : String) : DB × Except String Zone :=
  if db.zones.any (fun z => z.name = name) then
    (db, Except.error duplicateZoneNameError)
  else
    let z : Zone := ⟨db.nextZoneId, name, cx, cy, cz, radius, zone_type, now, 1⟩
    (⟨db.zones ++ [z], db.entities, db.nextZoneId + 1, db.nextEntityId⟩, Except.ok z)

/-- The method `SpatialComputing.add_entity`: inserts an entity row; there is
no uniqueness constraint, so the insert always succeeds.  `metadata` is the
serialised metadata blob, `json.dumps(metadata or \x7b\x7d)` defaulting to
`"\x7b\x7d"`. -/
def add_entity (db : DB) (name : String) (x y z : ℚ)
    (entity_type : String) (metadata : Option String) (now : String) :
    DB × SpatialEntity :=
  let meta := metadata.getD "\x7b\x7d"
  let e : SpatialEntity := ⟨db.nextEntityId, name, x, y, z, entity_type, meta, now⟩
  (⟨db.zones, db.entities ++ [e], db.nextZoneId, db.nextEntityId + 1⟩, e)

/-- The method `SpatialComputing.list_zones`: all zones, filtered to
`active=1` when `active_only` is set. -/
def list_zones (db : DB) (active_only : Bool) : List Zone :=
  if active_only then db.zones.filter (fun z => z.active = 1) else db.zones

/-- The method `SpatialComputing.list_entities`: all registered entities in
insertion order. -/
def list_entities (db : DB) : List SpatialEntity :=
  db.entities

/-- Decidable embedding of the comparison `sqrt s <= r` performed by the
queries (`dist <= zone.radius`, `dist <= threshold`), where `s` is the
squared distance.  `sqrtLe_iff` below proves it equivalent to the real
comparison. -/
def sqrtLe (s r : ℚ) : Bool :=
  decide (0 ≤ r) && decide (s ≤ r * r)

/-- The comparison by distance key used by `sorted(results, key=lambda t:
t[1])`, on the squared-distance representation of the key. -/
def distLE (p q : SpatialEntity × ℚ) : Prop :=
  p.2 ≤ q.2

instance : DecidableRel distLE :=
  fun p q => inferInstanceAs (Decidable (p.2 ≤ q.2))

/-- Python's `sorted(results, key=lambda t: t[1])`: a stable ascending sort
by the distance component. -/
def sortByDist (l : List (SpatialEntity × ℚ)) : List (SpatialEntity × ℚ) :=
  l.insertionSort distLE

/-- The result list of `find_entities_in_zone` before sorting: each entity
within the zone's radius, paired with its (squared) distance to the center,
in load order.  Empty when no zone has the given name. -/
def zoneCandidates (db : DB) (zone_name : String) : List (SpatialEntity × ℚ) :=
  match db.zones.find? (fun z => z.name = zone_name) with
  | none => []
  | some zone =>
      (list_entities db |>.filter
          (fun e => sqrtLe (e.position.sqDist zone.center) zone.radius)).map
        (fun e => (e, e.position.sqDist zone.center))

/-- The method `SpatialComputing.find_entities_in_zone`, carrying squared
distances as keys. -/
def find_entities_in_zoneSq (db : DB) (zone_name : String) :
    List (SpatialEntity × ℚ) :=
  sortByDist (zoneCandidates db zone_name)

/-- Reinterpretation of a result pair with its real distance, recovering the
`(entity, dist)` tuples the Python code returns. -/
noncomputable def toDistPair (p : SpatialEntity × ℚ) : SpatialEntity × ℝ :=
  (p.1, Real.sqrt ((p.2 : ℚ) : ℝ))

/-- The method `SpatialComputing.find_entities_in_zone`: entities inside the
named zone paired with their distances to the zone center, sorted ascending
by distance. -/
noncomputable def find_entities_in_zone (db : DB) (zone_name : String) :
    List (SpatialEntity × ℝ) :=
  (find_entities_in_zoneSq db zone_name).map toDistPair

/-- The result list of `proximity_check` before sorting: each entity other
than the target (excluded by id) within `threshold` of the target, paired
with its (squared) distance, in load order.  Empty when no entity has the
given name. -/
def proxCandidates (db : DB) (entity_name : String) (threshold : ℚ) :
    List (SpatialEntity × ℚ) :=
  match db.entities.find? (fun e => e.name = entity_name) with
  | none => []
  | some target =>
      (list_entities db |>.filter
          (fun e => e.id != target.id &&
            sqrtLe (e.position.sqDist target.position) threshold)).map
        (fun e => (e, e.position.sqDist target.position))

/-- The method `SpatialComputing.proximity_check`, carrying squared
distances as keys. -/
def proximity_checkSq (db : DB) (entity_name : String) (threshold : ℚ) :
    List (SpatialEntity × ℚ) :=
  sortByDist (proxCandidates db entity_name threshold)

/-- The method `SpatialComputing.proximity_check`: entities within
`threshold` of the named entity (itself excluded), sorted ascending by
distance. -/
noncomputable def proximity_check (db : DB) (entity_name : String)
    (threshold : ℚ) : List (SpatialEntity × ℝ) :=
  (proximity_checkSq db entity_name threshold).map toDistPair

/-- A JSON-serialisable dictionary value, as produced by `dataclasses.asdict`
on the zone and entity records (integer ids and flags, real coordinates,
strings). -/
inductive JVal where
  | n : ℕ → JVal
  | i : Int → JVal
  | q : ℚ → JVal
  | s : String → JVal
deriving DecidableEq

/-- A JSON-serialisable dictionary: an association list of field names to
values, as `dataclasses.asdict` produces. -/
def JDict : Type :=
  List (String × JVal)

/-- The effect of `dataclasses.asdict` on a `Zone` record. -/
def Zone.asdict (z : Zone) : JDict :=
  [("id", JVal.n z.id), ("name", JVal.s z.name), ("center_x", JVal.q z.center_x),
    ("center_y", JVal.q z.center_y), ("center_z", JVal.q z.center_z),
    ("radius", JVal.q z.radius), ("zone_type", JVal.s z.zone_type),
    ("created_at", JVal.s z.created_at), ("active", JVal.i z.active)]

/-- The effect of `dataclasses.asdict` on a `SpatialEntity` record. -/
def SpatialEntity.asdict (e : SpatialEntity) : JDict :=
  [("id", JVal.n e.id), ("name", JVal.s e.name), ("x", JVal.q e.x),
    ("y", JVal.q e.y), ("z", JVal.q e.z), ("entity_type", JVal.s e.entity_type),
    ("metadata", JVal.s e.metadata), ("last_updated", JVal.s e.last_updated)]

/-- Field lookup in an exported dictionary, expecting a natural number. -/
def JDict.getN (d : JDict) (k : String) : Option ℕ :=
  match List.lookup k d with
  | some (JVal.n v) => some v
  | _ => none

/-- Field lookup in an exported dictionary, expecting an integer. -/
def JDict.getI (d : JDict) (k : String) : Option Int :=
  match List.lookup k d with
  | some (JVal.i v) => some v
  | _ => none

/-- Field lookup in an exported dictionary, expecting a rational. -/
def JDict.getQ (d : JDict) (k : String) : Option ℚ :=
  match List.lookup k d with
  | some (JVal.q v) => some v
  | _ => none

/-- Field lookup in an exported dictionary, expecting a string. -/
def JDict.getS (d : JDict) (k : String) : Option String :=
  match List.lookup k d with
  | some (JVal.s v) => some v
  | _ => none

/-- Modelled from the spec: reconstruction of a `Zone` record from its
exported dictionary form (the spec requires the export to be "suitable for
round-trip reconstruction"; the repository ships no reconstruction code). -/
def Zone.fromDict (d : JDict) : Option Zone := do
  let id ← d.getN "id"
  let name ← d.getS "name"
  let cx ← d.getQ "center_x"
  let cy ← d.getQ "center_y"
  let cz ← d.getQ "center_z"
  let radius ← d.getQ "radius"
  let zone_type ← d.getS "zone_type"
  let created_at ← d.getS "created_at"
  let active ← d.getI "active"
  pure ⟨id, name, cx, cy, cz, radius, zone_type, created_at, active⟩

/-- Modelled from the spec: reconstruction of a `SpatialEntity` record from
its exported dictionary form. -/
def SpatialEntity.fromDict (d : JDict) : Option SpatialEntity := do
  let id ← d.getN "id"
  let name ← d.getS "name"
  let x ← d.getQ "x"
  let y ← d.getQ "y"
  let z ← d.getQ "z"
  let entity_type ← d.getS "entity_type"
  let metadata ← d.getS "metadata"
  let last_updated ← d.getS "last_updated"
  pure ⟨id, name, x, y, z, entity_type, metadata, last_updated⟩

/-- The structure returned by `SpatialComputing.export_data`. -/
structure ExportData where
  zones : List JDict
  entities : List JDict
  exported_at : String

/-- The method `SpatialComputing.export_data`: a full snapshot of all zones
(via `list_zones(active_only=False)`) and all entities, as dictionaries. -/
def export_data (db : DB) (now : String) : ExportData :=
  ⟨(list_zones db false).map Zone.asdict,
    (list_entities db).map SpatialEntity.asdict, now⟩

/-- A copy of a zone record with its `active` flag replaced. -/
def Zone.withActive (z : Zone) (a : Int) : Zone :=
  ⟨z.id, z.name, z.center_x, z.center_y, z.center_z, z.radius, z.zone_type,
    z.created_at, a⟩

/-- A database whose zone records all have their `active` flag replaced by
`a`; geometry, names and entities are untouched. -/
def DB.withZoneActive (db : DB) (a : Int) : DB :=
  ⟨db.zones.map (fun z => z.withActive a), db.entities, db.nextZoneId,
    db.nextEntityId⟩

/-- Example zone: sphere "A" centred at the origin with radius 5. -/
def exZoneA : Zone :=
  ⟨1, "A", 0, 0, 0, 5, "generic", "t0", 1⟩

/-- Example entity "p1" at (3, 4, 0): distance to `exZoneA`'s center is
exactly 5, on the zone boundary. -/
def exP1 : SpatialEntity :=
  ⟨1, "p1", 3, 4, 0, "object", "\x7b\x7d", "t1"⟩

/-- Example database holding `exZoneA` and `exP1`. -/
def exDB1 : DB :=
  ⟨[exZoneA], [exP1], 2, 2⟩

/-- Example entity "a" at the origin. -/
def exE1 : SpatialEntity :=
  ⟨1, "a", 0, 0, 0, "object", "\x7b\x7d", "t1"⟩

/-- Example entity "b" at the origin: the same coordinates as `exE1` but a
different id. -/
def exE2 : SpatialEntity :=
  ⟨2, "b", 0, 0, 0, "object", "\x7b\x7d", "t2"⟩

/-- Example database holding the two coincident entities `exE1`, `exE2`. -/
def exDB2 : DB :=
  ⟨[], [exE1, exE2], 1, 3⟩

end SpatialComputing

open SpatialComputing

/-! ### Helper lemmas -/

/-- The decidable test `sqrtLe s r` agrees with the real comparison
`sqrt s ≤ r` performed by the Python code. -/
theorem sqrtLe_iff (s r : ℚ) : sqrtLe s r = true ↔ Real.sqrt (s : ℝ) ≤ (r : ℝ) := by
  rw [Real.sqrt_le_iff, sqrtLe, Bool.and_eq_true, decide_eq_true_eq, decide_eq_true_eq]
  constructor
  · rintro ⟨h1, h2⟩
    refine ⟨by exact_mod_cast h1, ?_⟩
    rw [sq]
    exact_mod_cast h2
  · rintro ⟨h1, h2⟩
    refine ⟨by exact_mod_cast h1, ?_⟩
    rw [sq] at h2
    exact_mod_cast h2

/-- Squared distances are nonnegative. -/
theorem sqDist_nonneg (a b : Point3D) : 0 ≤ a.sqDist b := by
  unfold Point3D.sqDist
  positivity

/-- The sort used by the queries is a permutation of its input. -/
theorem perm_sortByDist (l : List (SpatialEntity × ℚ)) : List.Perm (sortByDist l) l :=
  List.perm_insertionSort distLE l

/-- The sort used by the queries produces a list that is pairwise ordered by
the distance key. -/
theorem sorted_sortByDist (l : List (SpatialEntity × ℚ)) :
    (sortByDist l).Pairwise distLE := by
  haveI : IsTotal (SpatialEntity × ℚ) distLE := ⟨fun a b => le_total a.2 b.2⟩
  haveI : IsTrans (SpatialEntity × ℚ) distLE := ⟨fun _ _ _ hab hbc => le_trans hab hbc⟩
  exact List.sorted_insertionSort distLE l

/-- Inserting into a sorted list commutes with restriction to one distance
key: the step case of the stability of the sort. -/
theorem filter_orderedInsert (p : SpatialEntity × ℚ)
    (l : List (SpatialEntity × ℚ)) (d : ℚ) :
    (l.orderedInsert distLE p).filter (fun q => q.2 = d) =
      (p :: l).filter (fun q => q.2 = d) := by
  induction l with
  | nil => rfl
  | cons b l ih =>
    rw [List.orderedInsert]
    by_cases h : distLE p b
    · rw [if_pos h]
    · rw [if_neg h]
      by_cases hb : b.2 = d
      · by_cases hp : p.2 = d
        · exact absurd (by simp [distLE, hp, hb]) h
        · simp [List.filter_cons, hb, hp, ih]
      · by_cases hp : p.2 = d
        · simp [List.filter_cons, hb, hp, ih]
        · simp [List.filter_cons, hb, hp, ih]

/-- Stability of the sort used by the queries: the entries holding any fixed
distance key appear in the sorted output exactly as they appear in the
input. -/
theorem filter_sortByDist (l : List (SpatialEntity × ℚ)) (d : ℚ) :
    (sortByDist l).filter (fun q => q.2 = d) = l.filter (fun q => q.2 = d) := by
  unfold sortByDist
  induction l with
  | nil => rfl
  | cons p l ih =>
    rw [List.insertionSort, filter_orderedInsert, List.filter_cons, List.filter_cons, ih]

/-- Membership in the pre-sort candidate list of `find_entities_in_zone`. -/
theorem mem_zoneCandidates {db : DB} {zname : String} {Z : Zone}
    (hZ : db.zones.find? (fun z => z.name = zname) = some Z)
    (p : SpatialEntity × ℚ) :
    p ∈ zoneCandidates db zname ↔
      p.1 ∈ db.entities ∧
        sqrtLe (p.1.position.sqDist Z.center) Z.radius = true ∧
        p.2 = p.1.position.sqDist Z.center := by
  unfold zoneCandidates
  rw [hZ]
  simp only [List.mem_map, List.mem_filter, list_entities]
  constructor
  · rintro ⟨e, ⟨he, hf⟩, rfl⟩
    exact ⟨he, hf, rfl⟩
  · rintro ⟨he, hf, hp⟩
    refine ⟨p.1, ⟨he, hf⟩, ?_⟩
    rw [← hp]

/-- Membership in the pre-sort candidate list of `proximity_check`. -/
theorem mem_proxCandidates {db : DB} {ename : String} {t : ℚ}
    {target : SpatialEntity}
    (h : db.entities.find? (fun e => e.name = ename) = some target)
    (p : SpatialEntity × ℚ) :
    p ∈ proxCandidates db ename t ↔
      p.1 ∈ db.entities ∧
        (p.1.id != target.id &&
          sqrtLe (p.1.position.sqDist target.position) t) = true ∧
        p.2 = p.1.position.sqDist target.position := by
  unfold proxCandidates
  rw [h]
  simp only [List.mem_map, List.mem_filter, list_entities]
  constructor
  · rintro ⟨e, ⟨he, hf⟩, rfl⟩
    exact ⟨he, hf, rfl⟩
  · rintro ⟨he, hf, hp⟩
    refine ⟨p.1, ⟨he, hf⟩, ?_⟩
    rw [← hp]

/-! ### Claim theorems -/

/-- C1: an entity appears (paired with its distance) in the result of
`find_entities_in_zone` for a zone's name if and only if its Euclidean
distance to the zone center is at most the radius; the boundary is
inclusive. -/
theorem zone_membership_boundary_inclusive (db : DB) (zname : String)
    (Z : Zone) (E : SpatialEntity)
    (hZ : db.zones.find? (fun z => z.name = zname) = some Z)
    (hE : E ∈ db.entities) :
    (E, E.position.distance_to Z.center) ∈ find_entities_in_zone db zname ↔
      E.position.distance_to Z.center ≤ (Z.radius : ℝ) := by
  unfold find_entities_in_zone find_entities_in_zoneSq
  constructor
  · intro h
    rcases List.mem_map.mp h with ⟨p, hp, hpe⟩
    have hp' : p ∈ zoneCandidates db zname := (perm_sortByDist _).subset hp
    rcases (mem_zoneCandidates hZ p).mp hp' with ⟨_, hf, _⟩
    have h1 : p.1 = E := by simpa [toDistPair] using congrArg Prod.fst hpe
    rw [h1] at hf
    exact (sqrtLe_iff _ _).mp hf
  · intro h
    have hf : sqrtLe (E.position.sqDist Z.center) Z.radius = true :=
      (sqrtLe_iff _ _).mpr h
    have hmem : (E, E.position.sqDist Z.center) ∈ zoneCandidates db zname :=
      (mem_zoneCandidates hZ _).mpr ⟨hE, hf, rfl⟩
    exact List.mem_map_of_mem toDistPair ((perm_sortByDist _).mem_iff.mpr hmem)

/-- Witness for C1 at the boundary: entity "p1" at (3,4,0) sits at distance
exactly 5 from zone "A" of radius 5. -/
theorem zone_membership_boundary_inclusive_witness :
    ((exP1, exP1.position.distance_to exZoneA.center) ∈
        find_entities_in_zone exDB1 "A" ↔
      exP1.position.distance_to exZoneA.center ≤ (exZoneA.radius : ℝ)) :=
  zone_membership_boundary_inclusive exDB1 "A" exZoneA exP1 (by decide) (by decide)

/-- C2: both query results are sorted non-decreasing by the distance
component, and the sort is stable: the entries carrying any fixed distance
key appear exactly as in the pre-sort candidate list, which lists entities
in load order. -/
theorem results_sorted_and_stable (db : DB) (zname ename : String) (t : ℚ) :
    ((find_entities_in_zone db zname).Pairwise (fun p q => p.2 ≤ q.2) ∧
      ∀ d : ℚ, (find_entities_in_zoneSq db zname).filter (fun p => p.2 = d) =
        (zoneCandidates db zname).filter (fun p => p.2 = d)) ∧
    ((proximity_check db ename t).Pairwise (fun p q => p.2 ≤ q.2) ∧
      ∀ d : ℚ, (proximity_checkSq db ename t).filter (fun p => p.2 = d) =
        (proxCandidates db ename t).filter (fun p => p.2 = d)) := by
  refine ⟨⟨?_, fun d => filter_sortByDist _ d⟩, ⟨?_, fun d => filter_sortByDist _ d⟩⟩
  · unfold find_entities_in_zone find_entities_in_zoneSq
    refine List.pairwise_map.mpr ((sorted_sortByDist _).imp ?_)
    intro a b hab
    exact Real.sqrt_le_sqrt (by exact_mod_cast hab)
  · unfold proximity_check proximity_checkSq
    refine List.pairwise_map.mpr ((sorted_sortByDist _).imp ?_)
    intro a b hab
    exact Real.sqrt_le_sqrt (by exact_mod_cast hab)

/-- C3: `proximity_check` never returns an entry whose entity id equals the
resolved target's id; the exclusion is by id, so entities sharing the
target's coordinates are unaffected. -/
theorem proximity_excludes_target_id (db : DB) (ename : String) (t : ℚ)
    (target : SpatialEntity)
    (h : db.entities.find? (fun e => e.name = ename) = some target) :
    (proximity_check db ename t).all (fun p => p.1.id != target.id) = true := by
  rw [List.all_eq_true]
  intro p hp
  unfold proximity_check proximity_checkSq at hp
  rcases List.mem_map.mp hp with ⟨q, hq, rfl⟩
  have hq' : q ∈ proxCandidates db ename t := (perm_sortByDist _).subset hq
  rcases (mem_proxCandidates h q).mp hq' with ⟨_, hf, _⟩
  rw [Bool.and_eq_true] at hf
  exact hf.1

/-- Witness for C3: entity "b" shares the coordinates of target "a", yet no
result entry carries the target's id. -/
theorem proximity_excludes_target_id_witness :
    (proximity_check exDB2 "a" 5).all (fun p => p.1.id != exE1.id) = true :=
  proximity_excludes_target_id exDB2 "a" 5 exE1 (by decide)

/-- C4: querying a zone name with no matching zone, or an entity name with
no matching entity, yields the empty sequence (and no error). -/
theorem missing_name_yields_empty (db : DB) (zname ename : String) (t : ℚ)
    (hz : ∀ z ∈ db.zones, z.name ≠ zname)
    (he : ∀ e ∈ db.entities, e.name ≠ ename) :
    find_entities_in_zone db zname = [] ∧ proximity_check db ename t = [] := by
  have h1 : db.zones.find? (fun z => z.name = zname) = none :=
    List.find?_eq_none.mpr fun z hzz => by simpa using hz z hzz
  have h2 : db.entities.find? (fun e => e.name = ename) = none :=
    List.find?_eq_none.mpr fun e hee => by simpa using he e hee
  constructor
  · unfold find_entities_in_zone find_entities_in_zoneSq zoneCandidates
    rw [h1]
    rfl
  · unfold proximity_check proximity_checkSq proxCandidates
    rw [h2]
    rfl


/-- Witness for C4: `exDB1` has no zone named "B" and no entity named
"ghost". -/
theorem missing_name_yields_empty_witness :
    find_entities_in_zone exDB1 "B" = [] ∧ proximity_check exDB1 "ghost" 3 = [] :=
  missing_name_yields_empty exDB1 "B" "ghost" 3 (by decide) (by decide)

/-- C5: creating a zone under an existing name fails with the duplicate-name
error and leaves the stored zones and entities unchanged. -/
theorem add_zone_duplicate_fails_unchanged (db : DB) (name : String)
    (cx cy cz radius : ℚ) (zt now : String)
    (h : ∃ z ∈ db.zones, z.name = name) :
    add_zone db name cx cy cz radius zt now =
      (db, Except.error duplicateZoneNameError) := by
  have hc : db.zones.any (fun z => z.name = name) = true :=
    List.any_eq_true.mpr (by simpa using h)
  unfold add_zone
  rw [if_pos hc]

/-- Witness for C5: adding a second zone named "A" to `exDB1` fails and
returns the database unchanged. -/
theorem add_zone_duplicate_fails_unchanged_witness :
    add_zone exDB1 "A" 1 1 1 2 "generic" "t9" =
      (exDB1, Except.error duplicateZoneNameError) :=
  add_zone_duplicate_fails_unchanged exDB1 "A" 1 1 1 2 "generic" "t9" (by decide)

/-- C6: the export contains every zone (inactive ones included) and every
entity, and reconstructing the records from their exported dictionaries
reproduces exactly the stored records, in order. -/
theorem export_roundtrip (db : DB) (now : String) :
    (export_data db now).zones.map Zone.fromDict = db.zones.map some ∧
      (export_data db now).entities.map SpatialEntity.fromDict =
        db.entities.map some := by
  constructor
  · show (List.map Zone.asdict (list_zones db false)).map Zone.fromDict = _
    rw [List.map_map]
    rfl
  · show (List.map SpatialEntity.asdict
        (list_entities db)).map SpatialEntity.fromDict = _
    rw [List.map_map]
    rfl

/-- C7: `distance_to` is exactly the Euclidean norm of the componentwise
difference (and, being a total function, never fails). -/
theorem distance_to_euclidean (a b : Point3D) :
    a.distance_to b =
      Real.sqrt (((a.x : ℝ) - (b.x : ℝ)) ^ 2 + ((a.y : ℝ) - (b.y : ℝ)) ^ 2 +
        ((a.z : ℝ) - (b.z : ℝ)) ^ 2) := by
  unfold Point3D.distance_to Point3D.sqDist
  congr 1
  push_cast
  ring

/-- Counterexample to C8: `add_zone` with radius -1 on the empty database
succeeds, and the created (and stored) zone has a negative radius. -/
theorem add_zone_negative_radius_counterexample :
    (add_zone emptyDB "z" 0 0 0 (-1) "generic" "t0").2 =
      Except.ok (⟨1, "z", 0, 0, 0, -1, "generic", "t0", 1⟩ : Zone) ∧
      (-1 : ℚ) < 0 := by
  constructor
  · rfl
  · decide

/-- C8 as amended: `add_zone` performs no radius validation: under a fresh
name it succeeds for every radius value, negative ones included, storing the
radius unchanged. -/
theorem add_zone_accepts_any_radius (db : DB) (name : String)
    (cx cy cz radius : ℚ) (zt now : String)
    (h : ∀ z ∈ db.zones, z.name ≠ name) :
    add_zone db name cx cy cz radius zt now =
      (⟨db.zones ++ [⟨db.nextZoneId, name, cx, cy, cz, radius, zt, now, 1⟩],
          db.entities, db.nextZoneId + 1, db.nextEntityId⟩,
        Except.ok ⟨db.nextZoneId, name, cx, cy, cz, radius, zt, now, 1⟩) := by
  have hc : db.zones.any (fun z => z.name = name) = false :=
    List.any_eq_false.mpr fun z hz => by simpa using h z hz
  unfold add_zone
  rw [if_neg (by simp [hc] : ¬ db.zones.any (fun z => z.name = name) = true)]

/-- Witness for the amended C8: a zone named "B" with radius -1 is created
successfully in `exDB1`. -/
theorem add_zone_accepts_any_radius_witness :
    add_zone exDB1 "B" 0 0 0 (-1) "generic" "t9" =
      (⟨exDB1.zones ++ [⟨exDB1.nextZoneId, "B", 0, 0, 0, -1, "generic", "t9", 1⟩],
          exDB1.entities, exDB1.nextZoneId + 1, exDB1.nextEntityId⟩,
        Except.ok ⟨exDB1.nextZoneId, "B", 0, 0, 0, -1, "generic", "t9", 1⟩) :=
  add_zone_accepts_any_radius exDB1 "B" 0 0 0 (-1) "generic" "t9" (by decide)

/-- C9: `add_entity` always succeeds, even when the name is already taken:
it appends exactly one record carrying the given name and timestamp, and on
a well-formed database the assigned id is fresh. -/
theorem add_entity_always_succeeds_fresh_id (db : DB) (h : db.WF)
    (name : String) (x y z : ℚ) (et : String) (m : Option String)
    (now : String) :
    (add_entity db name x y z et m now).1.entities =
        db.entities ++ [(add_entity db name x y z et m now).2] ∧
      (add_entity db name x y z et m now).2.name = name ∧
      (add_entity db name x y z et m now).2.last_updated = now ∧
      db.entities.all
        (fun e => e.id != (add_entity db name x y z et m now).2.id) = true := by
  refine ⟨rfl, rfl, rfl, ?_⟩
  rw [List.all_eq_true]
  intro e he
  show (e.id != db.nextEntityId) = true
  simpa using Nat.ne_of_lt (h.2 e he)

/-- Witness for C9: `exDB2` already holds an entity named "a"; adding a
second "a" still succeeds with a fresh id. -/
theorem add_entity_always_succeeds_fresh_id_witness :
    (add_entity exDB2 "a" 7 8 9 "object" none "t9").1.entities =
        exDB2.entities ++ [(add_entity exDB2 "a" 7 8 9 "object" none "t9").2] ∧
      (add_entity exDB2 "a" 7 8 9 "object" none "t9").2.name = "a" ∧
      (add_entity exDB2 "a" 7 8 9 "object" none "t9").2.last_updated = "t9" ∧
      exDB2.entities.all
        (fun e => e.id !=
          (add_entity exDB2 "a" 7 8 9 "object" none "t9").2.id) = true :=
  add_entity_always_succeeds_fresh_id exDB2 (by decide) "a" 7 8 9 "object" none
    "t9"

/-- C10: `find_entities_in_zone` never consults the `active` flag: replacing
every zone's flag by an arbitrary value (in particular deactivating the
queried zone) leaves the query result unchanged. -/
theorem find_entities_in_zone_ignores_active (db : DB) (n : String)
    (a : Int) :
    find_entities_in_zone (db.withZoneActive a) n =
      find_entities_in_zone db n := by
  unfold find_entities_in_zone find_entities_in_zoneSq zoneCandidates
    DB.withZoneActive
  rw [List.find?_map]
  have hp : ((fun z : Zone => decide (z.name = n)) ∘ fun z => z.withActive a) =
      fun z : Zone => decide (z.name = n) := rfl
  rw [hp]
  cases hfind : db.zones.find? (fun z : Zone => z.name = n) with
  | none => rfl
  | some z => rfl
